import Mathlib

/-!
Verification of the carrot-geyser-plugin account-forwarding pipeline
(`src/plugin.rs`), as a shallow embedding in Lean 4.

Modelling conventions:
* Byte sequences (`&[u8]`, `Vec<u8>`, `[u8; 32]`) become `List Nat`.
* A solana `Pubkey` is its 32-byte content, a `List Nat`.
* A configured identifier string (`token_program`, `mint_address`) is
  represented by the result of base58-decoding it: `Pubkey::from_str` is
  external library code, and the plugin only ever uses the decode result,
  so a config string is embedded as `Option Pubkey` (`none` = the string
  is not a valid pubkey string).
* A Rust panic (`expect`, out-of-bounds slice in `array_ref!`) becomes
  `Except.error msg`; a normal return of `Ok(())` together with the
  channel effects and log lines becomes `Except.ok (channel, logs)`.
* The mpsc channel is a `ChannelState`: a FIFO queue plus a `connected`
  flag (the receiver side being alive).  `send` appends when connected
  and fails (returning the error to the caller, queue untouched) when
  the receiver has been dropped, like `std::sync::mpsc::Sender::send`.
-/

/-- A 32-byte public key, modelled as its byte content. -/
abbrev Pubkey := List Nat

/-- A configured identifier string, represented by its base58-decode
result (`none` when the string is not a valid pubkey string). -/
abbrev PubkeyStr := Option Pubkey

/-- Model of the external `Pubkey::from_str`: with a config string
represented by its decode result, parsing just returns it. -/
def pubkeyFromStr (s : PubkeyStr) : Option Pubkey := s

/-- Model of `Pubkey::try_from(&[u8])`: succeeds exactly on 32 bytes. -/
def pubkeyTryFrom (bs : List Nat) : Option Pubkey :=
  if bs.length = 32 then some bs else none

/-- Model of the base58 rendering `Pubkey::to_string` (external library
`Display`); any injective rendering serves, we use the list printer. -/
def pubkeyToString (pk : Pubkey) : String := toString pk

/-- `TokenAccountFilter` from `plugin.rs` (config fields `mint_address`,
`token_program`, `topic`). -/
structure TokenAccountFilter where
  mint_address : PubkeyStr
  token_program : PubkeyStr
  topic : String
deriving Repr, DecidableEq

/-- `StreamNativeOAuth2Config` from `plugin.rs`. -/
structure StreamNativeOAuth2Config where
  issuer_url : String
  credentials_url : String
  audience : String
deriving Repr, DecidableEq

/-- `CarrotPluginConfig` from `plugin.rs`. -/
structure CarrotPluginConfig where
  pulsar_url : String
  streamnative_oauth2 : StreamNativeOAuth2Config
  token_account_filter : TokenAccountFilter
deriving Repr, DecidableEq

/-- `PulsarConfig` from `plugin.rs`. -/
structure PulsarConfig where
  pulsar_url : String
  issuer_url : String
  credentials_url : String
  audience : String
deriving Repr, DecidableEq

/-- The channel message type `PulsarMessage` from `plugin.rs`. -/
inductive PulsarMessage where
  | accountUpdate (pubkey : Pubkey) (token_account_owner : Pubkey)
      (account_data : List Nat) (write_version : Nat) (slot : Nat)
  | shutdown
deriving Repr, DecidableEq

/-- The mpsc channel between the callback thread and the worker: FIFO
queue plus whether the receiver end is still alive. -/
structure ChannelState where
  connected : Bool
  queue : List PulsarMessage
deriving Repr, DecidableEq

/-- `Sender::send`: appends when the receiver is alive (returns `true`),
otherwise leaves the queue untouched and reports failure (`false`). -/
def ChannelState.send (ch : ChannelState) (m : PulsarMessage) :
    ChannelState × Bool :=
  if ch.connected then ({ ch with queue := ch.queue ++ [m] }, true)
  else (ch, false)

/-- The plugin instance state `CarrotPlugin` from `plugin.rs`: the
sender and join handle are modelled by their presence. -/
structure CarrotPlugin where
  sender : Option Unit
  pulsar_handle : Option Unit
  token_account_filter : Option TokenAccountFilter
deriving Repr, DecidableEq

/-- `CarrotPlugin::default()`. -/
def CarrotPlugin.default : CarrotPlugin :=
  { sender := none, pulsar_handle := none, token_account_filter := none }

/-- `ReplicaAccountInfo` (wire version `V0_0_1`): the host-provided
account record. -/
structure ReplicaAccountInfo where
  pubkey : List Nat
  lamports : Nat
  owner : List Nat
  executable : Bool
  rent_epoch : Nat
  data : List Nat
  write_version : Nat
deriving Repr, DecidableEq

/-- `ReplicaAccountInfoV2` (wire version `V0_0_2`): adds the optional
transaction signature. -/
structure ReplicaAccountInfoV2 where
  pubkey : List Nat
  lamports : Nat
  owner : List Nat
  executable : Bool
  rent_epoch : Nat
  data : List Nat
  write_version : Nat
  txn_signature : Option (List Nat)
deriving Repr, DecidableEq

/-- `ReplicaAccountInfoV3` (wire version `V0_0_3`): adds the optional
transaction reference (opaque here). -/
structure ReplicaAccountInfoV3 where
  pubkey : List Nat
  lamports : Nat
  owner : List Nat
  executable : Bool
  rent_epoch : Nat
  data : List Nat
  write_version : Nat
  txn : Option Nat
deriving Repr, DecidableEq

/-- `ReplicaAccountInfoVersions` from the geyser plugin interface. -/
inductive ReplicaAccountInfoVersions where
  | V0_0_1 (a : ReplicaAccountInfo)
  | V0_0_2 (a : ReplicaAccountInfoV2)
  | V0_0_3 (a : ReplicaAccountInfoV3)
deriving Repr, DecidableEq

/-- The version `match` at the top of `update_account`: extracts
`(pubkey_bytes, owner_pubkey_bytes, account_bytes, write_version)`. -/
def extract : ReplicaAccountInfoVersions →
    List Nat × List Nat × List Nat × Nat
  | .V0_0_1 a => (a.pubkey, a.owner, a.data, a.write_version)
  | .V0_0_2 a => (a.pubkey, a.owner, a.data, a.write_version)
  | .V0_0_3 a => (a.pubkey, a.owner, a.data, a.write_version)

/-- The diagnostics `update_account` prints, as abstract events. -/
inductive LogEvent where
  | skipOwnerMismatch
  | mintMismatch
  | sendFailed
  | accountUpdateLogged
deriving Repr, DecidableEq

/-- `CarrotPlugin::update_account` from `plugin.rs`, returning the new
channel state and the log lines on the `Ok(())` paths, and
`Except.error` on every panic (`expect`, `array_ref!` out of bounds). -/
def updateAccount (p : CarrotPlugin) (ch : ChannelState)
    (account : ReplicaAccountInfoVersions) (slot : Nat) :
    Except String (ChannelState × List LogEvent) :=
  let (pubkey_bytes, owner_pubkey_bytes, account_bytes, write_version) :=
    extract account
  match p.token_account_filter with
  | none => .error "should access token account filter"
  | some filter =>
    match pubkeyFromStr filter.token_program with
    | none => .error "should parse token program pubkey"
    | some token_program_pubkey =>
      if owner_pubkey_bytes ≠ token_program_pubkey then
        .ok (ch, [.skipOwnerMismatch])
      else
        match pubkeyTryFrom pubkey_bytes with
        | none => .error "should construct account pubkey"
        | some pubkey =>
          if account_bytes.length < 32 then
            .error "array_ref out of bounds"
          else
            let token_account_mint_pubkey := account_bytes.take 32
            match pubkeyFromStr filter.mint_address with
            | none => .error "should parse mint address pubkey"
            | some expected_mint_address_pubkey =>
              if expected_mint_address_pubkey ≠ token_account_mint_pubkey then
                .ok (ch, [.mintMismatch])
              else
                if account_bytes.length < 64 then
                  .error "array_ref out of bounds"
                else
                  let token_account_owner_pubkey :=
                    (account_bytes.drop 32).take 32
                  match p.sender with
                  | none => .ok (ch, [.accountUpdateLogged])
                  | some _ =>
                    let r := ch.send (.accountUpdate pubkey
                      token_account_owner_pubkey account_bytes
                      write_version slot)
                    if r.2 then .ok (r.1, [.accountUpdateLogged])
                    else .ok (r.1, [.sendFailed, .accountUpdateLogged])

/-- A JSON value, enough for the payload built by `serde_json::json!`. -/
inductive Json where
  | str (s : String)
  | num (n : Nat)
  | arr (xs : List Json)
  | obj (fields : List (String × Json))
deriving Repr

/-- Whether a JSON value is a string. -/
def Json.isStr : Json → Bool
  | .str _ => true
  | _ => false

/-- Key lookup in a JSON object field list. -/
def lookupField (fields : List (String × Json)) (k : String) : Option Json :=
  match fields with
  | [] => none
  | (k2, v) :: rest => if k2 = k then some v else lookupField rest k

/-- The `serde_json::json!` payload the worker builds for an
`AccountUpdate`: `pubkey` through `Display` (base58 string), `slot` and
`write_version` as integers, `token_account_owner` through the derived
serde instance of `Pubkey` — a newtype over `[u8; 32]`, so a JSON array
of 32 numbers — and `account_data` (`Vec<u8>`) as an array of numbers. -/
def serializePayload (pubkey token_account_owner : Pubkey)
    (account_data : List Nat) (write_version slot : Nat) : Json :=
  .obj [("pubkey", .str (pubkeyToString pubkey)),
        ("slot", .num slot),
        ("token_account_owner", .arr (token_account_owner.map .num)),
        ("account_data", .arr (account_data.map .num)),
        ("write_version", .num write_version)]

/-- The worker's serve loop over the sequence of channel messages it
receives, in FIFO order: each `AccountUpdate` is serialized and a
publish is attempted (a publish failure is only logged, so the attempt
is recorded either way); the first `Shutdown` breaks the loop. -/
def serveLoop : List PulsarMessage → List Json
  | [] => []
  | .shutdown :: _ => []
  | .accountUpdate pk own data wv slot :: rest =>
      serializePayload pk own data wv slot :: serveLoop rest

/-- The publish attempts a message list should produce: one serialized
payload per `AccountUpdate`, none for `Shutdown`. -/
def publishAttempts (msgs : List PulsarMessage) : List Json :=
  msgs.filterMap fun m =>
    match m with
    | .accountUpdate pk own data wv slot =>
        some (serializePayload pk own data wv slot)
    | .shutdown => none

/-- Outcomes of the external broker interactions the worker performs at
startup and while publishing. -/
structure BrokerWorld where
  connect_ok : Bool
  producer_ok : Bool
  check_connection_ok : Bool
deriving Repr, DecidableEq

/-- The worker-thread startup sequence inside `start_pulsar_client`:
`Pulsar::builder(...).build()`, producer creation on the configured
topic, `check_connection()` — each unwrapped with `expect`, so a
failure panics (only) the worker thread. -/
def workerStartup (w : BrokerWorld) : Except String Unit :=
  if ¬ w.connect_ok then .error "should connect to Pulsar"
  else if ¬ w.producer_ok then .error "should create producer"
  else if ¬ w.check_connection_ok then
    .error "should be able to connect to pulsar"
  else .ok ()

/-- The whole worker thread body: startup, then the serve loop over the
messages it will receive. A startup failure panics the worker before
any message is served. -/
def runWorker (w : BrokerWorld) (msgs : List PulsarMessage) :
    Except String (List Json) := do
  workerStartup w
  pure (serveLoop msgs)

/-- `CarrotPlugin::start_pulsar_client`: creates the channel, stores the
sender, spawns the worker thread and stores its handle, and returns
`Ok(())` immediately — without consulting any broker outcome. Panics
(`expect`) only if the filter was never stored. The returned channel is
the freshly created, connected one. -/
def startPulsarClient (p : CarrotPlugin) (_c : PulsarConfig) :
    Except String (CarrotPlugin × ChannelState) :=
  match p.token_account_filter with
  | none => .error "should access token account filter"
  | some _ =>
      .ok ({ p with sender := some (), pulsar_handle := some () },
           { connected := true, queue := [] })

/-- `on_load`: the config file is opened and parsed with `expect`, so a
missing or malformed file panics rather than returning a load failure;
on success the filter is stored and `start_pulsar_client` is called.
The parsed-config argument models the outcome of the external file
open/parse (`none` = missing or malformed). -/
def onLoad (p : CarrotPlugin) (parsed : Option CarrotPluginConfig) :
    Except String (CarrotPlugin × ChannelState) :=
  match parsed with
  | none => .error "should be able to parse config file"
  | some config =>
      let p1 := { p with token_account_filter := some config.token_account_filter }
      startPulsarClient p1
        { pulsar_url := config.pulsar_url,
          issuer_url := config.streamnative_oauth2.issuer_url,
          credentials_url := config.streamnative_oauth2.credentials_url,
          audience := config.streamnative_oauth2.audience }

/-- `on_unload`: sends `Shutdown` through the sender if one exists
(borrowing it — the `sender` field itself is not cleared), then `take`s
the join handle and joins the worker. After the join the worker has
exited and dropped the receiver, so the channel is disconnected and its
queue drained; we model that post-join channel state directly. -/
def onUnload (p : CarrotPlugin) (ch : ChannelState) :
    CarrotPlugin × ChannelState :=
  let ch1 := match p.sender with
    | some _ => (ch.send .shutdown).1
    | none => ch
  let ch2 := match p.pulsar_handle with
    | some _ => { connected := false, queue := [] }
    | none => ch1
  ({ p with pulsar_handle := none }, ch2)

/-- Object fields of a JSON value (empty for non-objects). -/
def payloadFields : Json → List (String × Json)
  | .obj fs => fs
  | _ => []

/-- Example token program key. -/
def tp0 : Pubkey := List.replicate 32 1

/-- Example configured mint key. -/
def mint0 : Pubkey := List.replicate 32 2

/-- Example token-account owner key. -/
def own0 : Pubkey := List.replicate 32 3

/-- Example account pubkey. -/
def pk0 : Pubkey := List.replicate 32 4

/-- Example 64-byte token-account payload: mint then owner. -/
def data0 : List Nat := mint0 ++ own0

/-- Example filter with valid (decodable) identifier strings. -/
def filter0 : TokenAccountFilter :=
  { mint_address := some mint0, token_program := some tp0,
    topic := "accounts" }

/-- Example loaded plugin instance. -/
def plugin0 : CarrotPlugin :=
  { sender := some (), pulsar_handle := some (),
    token_account_filter := some filter0 }

/-- Example fresh, connected channel. -/
def ch0 : ChannelState := { connected := true, queue := [] }

/-- Example matching account update (wire version `V0_0_1`). -/
def acct0 : ReplicaAccountInfoVersions :=
  .V0_0_1 { pubkey := pk0, lamports := 7, owner := tp0,
            executable := false, rent_epoch := 3,
            data := data0, write_version := 5 }

/-- On a fully matching update (owner = token program, 32-byte pubkey,
payload of at least 64 bytes whose first 32 bytes are the configured
mint) with a sender present, `update_account` reaches the send and its
outcome is exactly that of one `Sender::send` of the extracted
message. -/
theorem updateAccount_matched {p : CarrotPlugin} {ch : ChannelState}
    {account : ReplicaAccountInfoVersions} {slot : Nat}
    {pkb ownb datab : List Nat} {wv : Nat}
    {f : TokenAccountFilter} {tp mint : Pubkey}
    (hex : extract account = (pkb, ownb, datab, wv))
    (hf : p.token_account_filter = some f)
    (hs : p.sender = some ())
    (htp : f.token_program = some tp)
    (hmint : f.mint_address = some mint)
    (howner : ownb = tp)
    (hpk : pkb.length = 32)
    (hlen : 64 ≤ datab.length)
    (hmatch : datab.take 32 = mint) :
    updateAccount p ch account slot =
      (if (ch.send (.accountUpdate pkb ((datab.drop 32).take 32)
            datab wv slot)).2
       then .ok ((ch.send (.accountUpdate pkb ((datab.drop 32).take 32)
            datab wv slot)).1, [.accountUpdateLogged])
       else .ok ((ch.send (.accountUpdate pkb ((datab.drop 32).take 32)
            datab wv slot)).1, [.sendFailed, .accountUpdateLogged])) := by
  have h32 : ¬ (datab.length < 32) := by omega
  have h64 : ¬ (datab.length < 64) := by omega
  simp [updateAccount, hex, hf, hs, htp, hmint, howner, hmatch,
    pubkeyFromStr, pubkeyTryFrom, hpk, h32, h64]

/-- C1: for every loaded plugin instance (filter stored with decodable
identifier strings, sender present, channel connected) and every account
update whose owner bytes equal the configured token program, whose
pubkey is 32 bytes, and whose payload is at least 64 bytes with bytes
[0,32) equal to the configured mint, `update_account` enqueues exactly
one `ChannelMessage`, carrying the update's slot and write_version
unchanged, the payload's bytes [32,64) as `token_account_owner`, and the
full raw payload as `account_data`, and returns `Ok(())`. -/
theorem C1_matched_update_enqueues_single_message
    {p : CarrotPlugin} {ch : ChannelState}
    {account : ReplicaAccountInfoVersions} {slot : Nat}
    {pkb ownb datab : List Nat} {wv : Nat}
    {f : TokenAccountFilter} {tp mint : Pubkey}
    (hex : extract account = (pkb, ownb, datab, wv))
    (hf : p.token_account_filter = some f)
    (hs : p.sender = some ())
    (htp : f.token_program = some tp)
    (hmint : f.mint_address = some mint)
    (hconn : ch.connected = true)
    (howner : ownb = tp)
    (hpk : pkb.length = 32)
    (hlen : 64 ≤ datab.length)
    (hmatch : datab.take 32 = mint) :
    updateAccount p ch account slot =
      .ok ({ ch with queue := ch.queue ++
              [.accountUpdate pkb ((datab.drop 32).take 32) datab wv slot] },
           [.accountUpdateLogged]) := by
  rw [updateAccount_matched hex hf hs htp hmint howner hpk hlen hmatch]
  simp [ChannelState.send, hconn]

/-- Concrete run of `C1_matched_update_enqueues_single_message`:
slot 100, write_version 5, 64-byte payload mint0 ++ own0. -/
theorem C1_witness :
    updateAccount plugin0 ch0 acct0 100 =
      .ok ({ ch0 with queue := ch0.queue ++
              [.accountUpdate pk0 ((data0.drop 32).take 32) data0 5 100] },
           [.accountUpdateLogged]) :=
  C1_matched_update_enqueues_single_message rfl rfl rfl rfl rfl rfl rfl
    (by decide) (by decide) (by decide)

/-- C4: for every loaded plugin instance, an update rejected by the
filter — owner bytes differ from the configured token program, or (with
a payload of at least 32 bytes) payload bytes [0,32) differ from the
configured mint — produces zero channel messages and returns `Ok(())`
(with only the corresponding skip diagnostic). -/
theorem C4_unmatched_update_sends_nothing
    {p : CarrotPlugin} {ch : ChannelState}
    {account : ReplicaAccountInfoVersions} {slot : Nat}
    {pkb ownb datab : List Nat} {wv : Nat}
    {f : TokenAccountFilter} {tp mint : Pubkey}
    (hex : extract account = (pkb, ownb, datab, wv))
    (hf : p.token_account_filter = some f)
    (htp : f.token_program = some tp)
    (hmint : f.mint_address = some mint)
    (hpk : pkb.length = 32)
    (hrej : ownb ≠ tp ∨ (32 ≤ datab.length ∧ datab.take 32 ≠ mint)) :
    updateAccount p ch account slot = .ok (ch, [.skipOwnerMismatch]) ∨
    updateAccount p ch account slot = .ok (ch, [.mintMismatch]) := by
  by_cases howner : ownb = tp
  · rcases hrej with h | ⟨hlen, hne⟩
    · exact absurd howner h
    · right
      have h32 : ¬ (datab.length < 32) := by omega
      have hne2 : mint ≠ datab.take 32 := fun h => hne h.symm
      simp [updateAccount, hex, hf, htp, hmint, howner,
        pubkeyFromStr, pubkeyTryFrom, hpk, h32, hne2]
  · left
    simp [updateAccount, hex, hf, htp, pubkeyFromStr, howner]

/-- Concrete run of `C4_unmatched_update_sends_nothing`: owner is
`own0`, not the configured token program `tp0`. -/
theorem C4_witness :
    updateAccount plugin0 ch0
      (.V0_0_1 { pubkey := pk0, lamports := 0, owner := own0,
                 executable := false, rent_epoch := 0,
                 data := data0, write_version := 5 }) 100 =
        .ok (ch0, [.skipOwnerMismatch]) ∨
    updateAccount plugin0 ch0
      (.V0_0_1 { pubkey := pk0, lamports := 0, owner := own0,
                 executable := false, rent_epoch := 0,
                 data := data0, write_version := 5 }) 100 =
        .ok (ch0, [.mintMismatch]) :=
  C4_unmatched_update_sends_nothing rfl rfl rfl rfl (by decide)
    (Or.inl (by decide))

/-- C7: when the consumer side of the channel is gone (`connected =
false`), a matching update's send fails; the failure is only logged, the
queue is untouched, and `update_account` still returns `Ok(())`. -/
theorem C7_send_failure_swallowed
    {p : CarrotPlugin} {ch : ChannelState}
    {account : ReplicaAccountInfoVersions} {slot : Nat}
    {pkb ownb datab : List Nat} {wv : Nat}
    {f : TokenAccountFilter} {tp mint : Pubkey}
    (hex : extract account = (pkb, ownb, datab, wv))
    (hf : p.token_account_filter = some f)
    (hs : p.sender = some ())
    (htp : f.token_program = some tp)
    (hmint : f.mint_address = some mint)
    (hdis : ch.connected = false)
    (howner : ownb = tp)
    (hpk : pkb.length = 32)
    (hlen : 64 ≤ datab.length)
    (hmatch : datab.take 32 = mint) :
    updateAccount p ch account slot =
      .ok (ch, [.sendFailed, .accountUpdateLogged]) := by
  rw [updateAccount_matched hex hf hs htp hmint howner hpk hlen hmatch]
  simp [ChannelState.send, hdis]

/-- Concrete run of `C7_send_failure_swallowed`: matching update on a
disconnected channel still returns success. -/
theorem C7_witness :
    updateAccount plugin0 { connected := false, queue := [] } acct0 100 =
      .ok ({ connected := false, queue := [] },
           [.sendFailed, .accountUpdateLogged]) :=
  C7_send_failure_swallowed rfl rfl rfl rfl rfl rfl rfl
    (by decide) (by decide) (by decide)

/-- C2 (code behaviour at the failing input): with owner equal to the
configured token program but a 10-byte payload, `update_account` panics
in the `array_ref!` slice indexing instead of skipping the update and
returning `Ok(())` as the spec requires. -/
theorem C2_short_payload_panics :
    updateAccount plugin0 ch0
      (.V0_0_1 { pubkey := pk0, lamports := 0, owner := tp0,
                 executable := false, rent_epoch := 0,
                 data := List.replicate 10 0, write_version := 5 }) 100 =
      .error "array_ref out of bounds" := by
  simp [updateAccount, extract, plugin0, filter0, pubkeyFromStr,
    pubkeyTryFrom, pk0, tp0, ch0]

/-- Example parsed configuration with valid identifier strings. -/
def cfg0 : CarrotPluginConfig :=
  { pulsar_url := "pulsar://example",
    streamnative_oauth2 :=
      { issuer_url := "issuer", credentials_url := "creds",
        audience := "aud" },
    token_account_filter := filter0 }

/-- A broker world in which the Pulsar connection cannot be built. -/
def badWorld : BrokerWorld :=
  { connect_ok := false, producer_ok := true, check_connection_ok := true }

/-- C3 counterexample: with the broker unreachable, `on_load` still
returns success (the worker is merely spawned), while the worker's
startup fails — load success is reported without broker authentication,
producer creation, or the connectivity check having been confirmed. -/
theorem C3_load_reports_success_before_worker_startup :
    onLoad CarrotPlugin.default (some cfg0) =
      .ok ({ sender := some (), pulsar_handle := some (),
             token_account_filter := some filter0 },
           { connected := true, queue := [] }) ∧
    workerStartup badWorld = .error "should connect to Pulsar" := by
  constructor
  · simp [onLoad, startPulsarClient, CarrotPlugin.default, cfg0]
  · simp [workerStartup, badWorld]

/-- C3 amended: `on_load` returns success as soon as the configuration
parses and the worker thread is spawned, without consulting any broker
startup outcome; when broker authentication, producer creation, or the
connectivity check fails, that failure panics only the worker thread
(which then serves no messages), after load has already reported
success. -/
theorem C3_amended_startup_is_asynchronous
    (p : CarrotPlugin) (config : CarrotPluginConfig)
    (w : BrokerWorld) (msgs : List PulsarMessage)
    (hw : w.connect_ok = false ∨ w.producer_ok = false ∨
          w.check_connection_ok = false) :
    onLoad p (some config) =
      .ok ({ p with sender := some (),
                    pulsar_handle := some (),
                    token_account_filter := some config.token_account_filter },
           { connected := true, queue := [] }) ∧
    ∃ e, runWorker w msgs = .error e := by
  constructor
  · simp [onLoad, startPulsarClient]
  · rcases hw with h | h | h
    · exact ⟨"should connect to Pulsar", by simp [runWorker, workerStartup, h]⟩
    · by_cases hc : w.connect_ok
      · exact ⟨"should create producer",
          by simp [runWorker, workerStartup, hc, h]⟩
      · exact ⟨"should connect to Pulsar",
          by simp [runWorker, workerStartup, hc]⟩
    · by_cases hc : w.connect_ok
      · by_cases hp2 : w.producer_ok
        · exact ⟨"should be able to connect to pulsar",
            by simp [runWorker, workerStartup, hc, hp2, h]⟩
        · exact ⟨"should create producer",
            by simp [runWorker, workerStartup, hc, hp2]⟩
      · exact ⟨"should connect to Pulsar",
          by simp [runWorker, workerStartup, hc]⟩

/-- Concrete run of `C3_amended_startup_is_asynchronous` at
`CarrotPlugin.default`, `cfg0` and `badWorld`. -/
theorem C3_amended_witness :
    onLoad CarrotPlugin.default (some cfg0) =
      .ok ({ CarrotPlugin.default with
               sender := some (),
               pulsar_handle := some (),
               token_account_filter := some cfg0.token_account_filter },
           { connected := true, queue := [] }) ∧
    ∃ e, runWorker badWorld [] = .error e :=
  C3_amended_startup_is_asynchronous CarrotPlugin.default cfg0 badWorld []
    (Or.inl (by decide))

/-- C5 counterexample: at a concrete matched update, the serialized
payload's `token_account_owner` field is not a string — the `Pubkey` is
serialized through its derived serde instance as an array of 32 byte
values — while `pubkey` (which goes through `to_string()`) is one. -/
theorem C5_owner_field_not_rendered_as_string :
    (lookupField (payloadFields (serializePayload pk0 own0 data0 5 100))
        "token_account_owner").map Json.isStr = some false ∧
    (lookupField (payloadFields (serializePayload pk0 own0 data0 5 100))
        "pubkey").map Json.isStr = some true := by
  constructor <;>
    simp [serializePayload, payloadFields, lookupField, Json.isStr]

/-- C5 amended: every outbound payload for an `AccountUpdate` is an
object with exactly the keys `pubkey`, `slot`, `token_account_owner`,
`account_data`, `write_version` (in that order); `pubkey` is the
canonical identifier string, `slot` and `write_version` are the
integers carried by the `ChannelMessage`, `account_data` is the raw
byte sequence, and `token_account_owner` is serialized as the raw
32-byte array of the owner key, not as an identifier string. -/
theorem C5_amended_payload_shape (pk own data : List Nat)
    (wv slot : Nat) :
    (payloadFields (serializePayload pk own data wv slot)).map
        Prod.fst =
      ["pubkey", "slot", "token_account_owner", "account_data",
       "write_version"] ∧
    lookupField (payloadFields (serializePayload pk own data wv slot))
        "pubkey" = some (.str (pubkeyToString pk)) ∧
    lookupField (payloadFields (serializePayload pk own data wv slot))
        "slot" = some (.num slot) ∧
    lookupField (payloadFields (serializePayload pk own data wv slot))
        "token_account_owner" = some (.arr (own.map .num)) ∧
    lookupField (payloadFields (serializePayload pk own data wv slot))
        "account_data" = some (.arr (data.map .num)) ∧
    lookupField (payloadFields (serializePayload pk own data wv slot))
        "write_version" = some (.num wv) := by
  refine ⟨rfl, ?_, ?_, ?_, ?_, ?_⟩ <;>
    simp [serializePayload, payloadFields, lookupField]

/-- C6: for any channel content consisting of messages `before` (none
of them `Shutdown`), then a `Shutdown`, then anything after, the serve
loop attempts to publish exactly the serializations of every
`AccountUpdate` in `before`, in enqueue order, and then exits — it
never exits with an earlier-enqueued `AccountUpdate` unprocessed. -/
theorem C6_worker_drains_queue_before_shutdown
    (before after : List PulsarMessage)
    (h : PulsarMessage.shutdown ∉ before) :
    serveLoop (before ++ PulsarMessage.shutdown :: after) =
      publishAttempts before := by
  induction before with
  | nil => simp [serveLoop, publishAttempts]
  | cons m rest ih =>
    have h2 : PulsarMessage.shutdown ∉ rest :=
      fun hr => h (List.mem_cons_of_mem _ hr)
    cases m with
    | accountUpdate pk own data wv slot =>
      have hrest := ih h2
      simp only [publishAttempts] at hrest
      simp [serveLoop, publishAttempts, hrest]
    | shutdown => exact absurd (List.mem_cons_self _ _) h

/-- Concrete run of `C6_worker_drains_queue_before_shutdown`: two
queued updates, a shutdown, and a late update that is never served. -/
theorem C6_witness :
    (PulsarMessage.shutdown ∉
      [PulsarMessage.accountUpdate [1] [2] [3] 4 5,
       PulsarMessage.accountUpdate [6] [7] [8] 9 10]) ∧
    serveLoop ([PulsarMessage.accountUpdate [1] [2] [3] 4 5,
                PulsarMessage.accountUpdate [6] [7] [8] 9 10] ++
               PulsarMessage.shutdown ::
                [PulsarMessage.accountUpdate [0] [0] [0] 0 0]) =
      publishAttempts
        [PulsarMessage.accountUpdate [1] [2] [3] 4 5,
         PulsarMessage.accountUpdate [6] [7] [8] 9 10] :=
  ⟨by decide, C6_worker_drains_queue_before_shutdown _ _ (by decide)⟩

/-- Filter whose `token_program` string is not a valid pubkey string. -/
def badFilter : TokenAccountFilter :=
  { mint_address := some mint0, token_program := none,
    topic := "accounts" }

/-- Parsed configuration carrying the invalid `token_program` string. -/
def badCfg : CarrotPluginConfig :=
  { cfg0 with token_account_filter := badFilter }

/-- The plugin state after loading `badCfg`. -/
def badPlugin : CarrotPlugin :=
  { sender := some (), pulsar_handle := some (),
    token_account_filter := some badFilter }

/-- C8 (code behaviour at the failing inputs): a malformed config file
makes `on_load` panic (an `expect`, not a returned load failure), and a
config whose `token_program` string is not a valid identifier passes
`on_load` successfully and then panics inside `update_account` on the
callback thread, at `Pubkey::from_str(..).expect(..)`. -/
theorem C8_config_validation_deferred_to_callback :
    onLoad CarrotPlugin.default none =
      .error "should be able to parse config file" ∧
    onLoad CarrotPlugin.default (some badCfg) =
      .ok (badPlugin, { connected := true, queue := [] }) ∧
    updateAccount badPlugin ch0 acct0 100 =
      .error "should parse token program pubkey" := by
  refine ⟨rfl, ?_, ?_⟩
  · simp [onLoad, startPulsarClient, CarrotPlugin.default, badCfg,
      badFilter, badPlugin, cfg0]
  · simp [updateAccount, extract, badPlugin, badFilter, pubkeyFromStr,
      acct0]

/-- C9: the three wire versions of the update record normalize to the
same internal shape — if their `pubkey`, `owner`, `data` and
`write_version` fields agree, `update_account` on the same plugin
state, channel and slot returns the same result and sends the same
message (or none). -/
theorem C9_wire_versions_equivalent
    (p : CarrotPlugin) (ch : ChannelState) (slot : Nat)
    (a1 : ReplicaAccountInfo) (a2 : ReplicaAccountInfoV2)
    (a3 : ReplicaAccountInfoV3)
    (hp2 : a2.pubkey = a1.pubkey) (ho2 : a2.owner = a1.owner)
    (hd2 : a2.data = a1.data) (hw2 : a2.write_version = a1.write_version)
    (hp3 : a3.pubkey = a1.pubkey) (ho3 : a3.owner = a1.owner)
    (hd3 : a3.data = a1.data) (hw3 : a3.write_version = a1.write_version) :
    updateAccount p ch (.V0_0_2 a2) slot =
      updateAccount p ch (.V0_0_1 a1) slot ∧
    updateAccount p ch (.V0_0_3 a3) slot =
      updateAccount p ch (.V0_0_1 a1) slot := by
  have e2 : extract (.V0_0_2 a2) = extract (.V0_0_1 a1) := by
    simp [extract, hp2, ho2, hd2, hw2]
  have e3 : extract (.V0_0_3 a3) = extract (.V0_0_1 a1) := by
    simp [extract, hp3, ho3, hd3, hw3]
  constructor
  · simp only [updateAccount, e2]
  · simp only [updateAccount, e3]

/-- Concrete run of `C9_wire_versions_equivalent`: three records equal
on the four extracted fields but different elsewhere. -/
theorem C9_witness :
    (updateAccount plugin0 ch0
        (.V0_0_2 { pubkey := pk0, lamports := 1, owner := tp0,
                   executable := true, rent_epoch := 9,
                   data := data0, write_version := 5,
                   txn_signature := some [1, 2] }) 100 =
      updateAccount plugin0 ch0
        (.V0_0_1 { pubkey := pk0, lamports := 7, owner := tp0,
                   executable := false, rent_epoch := 3,
                   data := data0, write_version := 5 }) 100) ∧
    (updateAccount plugin0 ch0
        (.V0_0_3 { pubkey := pk0, lamports := 2, owner := tp0,
                   executable := false, rent_epoch := 8,
                   data := data0, write_version := 5,
                   txn := some 3 }) 100 =
      updateAccount plugin0 ch0
        (.V0_0_1 { pubkey := pk0, lamports := 7, owner := tp0,
                   executable := false, rent_epoch := 3,
                   data := data0, write_version := 5 }) 100) :=
  C9_wire_versions_equivalent plugin0 ch0 100 _ _ _
    rfl rfl rfl rfl rfl rfl rfl rfl

/-- C10: `on_unload` takes only the `pulsar_handle` field to `none` —
`sender` and `token_account_filter` are left unchanged — and after the
join the channel is disconnected, so a later matching `update_account`
still evaluates the filter, attempts the send, merely logs the send
failure, and returns `Ok(())`. -/
theorem C10_unload_clears_only_handle
    {p : CarrotPlugin} {ch : ChannelState}
    {account : ReplicaAccountInfoVersions} {slot : Nat}
    {pkb ownb datab : List Nat} {wv : Nat}
    {f : TokenAccountFilter} {tp mint : Pubkey}
    (hs : p.sender = some ())
    (hh : p.pulsar_handle = some ())
    (hf : p.token_account_filter = some f)
    (hex : extract account = (pkb, ownb, datab, wv))
    (htp : f.token_program = some tp)
    (hmint : f.mint_address = some mint)
    (howner : ownb = tp)
    (hpk : pkb.length = 32)
    (hlen : 64 ≤ datab.length)
    (hmatch : datab.take 32 = mint) :
    (onUnload p ch).1.sender = p.sender ∧
    (onUnload p ch).1.token_account_filter = p.token_account_filter ∧
    (onUnload p ch).1.pulsar_handle = none ∧
    (onUnload p ch).2.connected = false ∧
    updateAccount (onUnload p ch).1 (onUnload p ch).2 account slot =
      .ok ((onUnload p ch).2, [.sendFailed, .accountUpdateLogged]) := by
  have hu : onUnload p ch =
      ({ p with pulsar_handle := none },
       { connected := false, queue := [] }) := by
    simp [onUnload, hs, hh]
  rw [hu]
  refine ⟨rfl, rfl, rfl, rfl, ?_⟩
  exact @updateAccount_matched
    { sender := p.sender, pulsar_handle := none,
      token_account_filter := p.token_account_filter }
    { connected := false, queue := [] } account slot pkb ownb datab wv
    f tp mint hex hf hs htp hmint howner hpk hlen hmatch

/-- Concrete run of `C10_unload_clears_only_handle` on the loaded
example instance and a matching update after unload. -/
theorem C10_witness :
    (onUnload plugin0 ch0).1.sender = plugin0.sender ∧
    (onUnload plugin0 ch0).1.token_account_filter =
      plugin0.token_account_filter ∧
    (onUnload plugin0 ch0).1.pulsar_handle = none ∧
    (onUnload plugin0 ch0).2.connected = false ∧
    updateAccount (onUnload plugin0 ch0).1 (onUnload plugin0 ch0).2
        acct0 100 =
      .ok ((onUnload plugin0 ch0).2,
           [.sendFailed, .accountUpdateLogged]) :=
  C10_unload_clears_only_handle rfl rfl rfl rfl rfl rfl rfl
    (by decide) (by decide) (by decide)
